import Mathlib

/-!
Shallow embedding of the `pruning-er` repository's Python scripts:

* `scripts/responses.py` — an OpenRouter chat-completions test client:
  `load_question`, `build_messages`, `call_openrouter`,
  `_join_reasoning_details`, `extract_reasoning_and_answer`, `main`.
* `data/prep_s1k_chatml.py` — a dataset-to-ChatML converter loop.

Python values flowing through these scripts are JSON-shaped (they come
from `json.loads`, `resp.json()` or a dataset row), so we model them by
an inductive `Json` type.  JSON numbers are modelled as integers: no
claim involves a non-integral number.  Python exceptions
(`AttributeError`, `TypeError`, `KeyError`, `SystemExit`,
`requests.HTTPError`) are modelled by `Except String`; the string is
the message, and the particular message text is never load-bearing.
-/

namespace PruningEr

/-- JSON values, as produced by Python's `json.loads` / `resp.json()`.
Object fields are an association list with string keys (Python dicts
obtained from JSON always have string keys). -/
inductive Json where
  | null : Json
  | bool : Bool → Json
  | num : Int → Json
  | str : String → Json
  | arr : List Json → Json
  | obj : List (String × Json) → Json

/-- Python truthiness (`bool(x)`) of a JSON-shaped value: `None`,
`False`, `0`, `""`, `[]`, `{}` are falsy, everything else truthy. -/
def Json.truthy : Json → Bool
  | .null => false
  | .bool b => b
  | .num n => n != 0
  | .str s => !s.isEmpty
  | .arr xs => !xs.isEmpty
  | .obj kvs => !kvs.isEmpty

mutual

/-- Python `repr` of a JSON-shaped value (as used by `str` on lists and
dicts).  Faithful for values whose strings contain no quote or escape
characters; no claim inspects this rendering. -/
def Json.reprPy : Json → String
  | .null => "None"
  | .bool b => if b then "True" else "False"
  | .num n => toString n
  | .str s => "'" ++ s ++ "'"
  | .arr xs => "[" ++ String.intercalate ", " (reprPyList xs) ++ "]"
  | .obj kvs => "\x7b" ++ String.intercalate ", " (reprPyKVs kvs) ++ "\x7d"

/-- `repr` of each element of a Python list. -/
def reprPyList : List Json → List String
  | [] => []
  | x :: xs => x.reprPy :: reprPyList xs

/-- `repr` of each `key: value` entry of a Python dict. -/
def reprPyKVs : List (String × Json) → List String
  | [] => []
  | kv :: kvs => ("'" ++ kv.1 ++ "': " ++ kv.2.reprPy) :: reprPyKVs kvs

end

/-- Python `str(x)` of a JSON-shaped value. -/
def Json.strPy : Json → String
  | .str s => s
  | j => j.reprPy

/-- Python `d.get(k, default)`: only dicts have `.get`; any other
receiver raises `AttributeError`. -/
def pyGetD (j : Json) (k : String) (dflt : Json) : Except String Json :=
  match j with
  | .obj kvs =>
      match kvs.lookup k with
      | some v => .ok v
      | none => .ok dflt
  | _ => .error "AttributeError: no attribute get"

/-- Python `d.get(k)` (default `None`). -/
def pyGet (j : Json) (k : String) : Except String Json :=
  pyGetD j k .null

/-- Python `x[0]` on a JSON-shaped value: first element of a list,
first character of a string; a dict raises `KeyError` (its keys are
strings, never the integer `0`); other receivers raise `TypeError`. -/
def pyIndex0 : Json → Except String Json
  | .arr [] => .error "IndexError: list index out of range"
  | .arr (x :: _) => .ok x
  | .str s =>
      match s.toList with
      | [] => .error "IndexError: string index out of range"
      | c :: _ => .ok (.str c.toString)
  | .obj _ => .error "KeyError: 0"
  | _ => .error "TypeError: object is not subscriptable"

/-- Python `for d in x`: lists yield their elements, strings their
characters (as one-character strings), dicts their keys; numbers and
booleans raise `TypeError`. -/
def pyIter : Json → Except String (List Json)
  | .arr xs => .ok xs
  | .str s => .ok (s.toList.map (fun c => .str c.toString))
  | .obj kvs => .ok (kvs.map (fun kv => Json.str kv.1))
  | _ => .error "TypeError: object is not iterable"

/-- Drop leading whitespace characters from a character list. -/
def dropLeadingWs : List Char → List Char
  | [] => []
  | c :: cs => if c.isWhitespace then dropLeadingWs cs else c :: cs

/-- Python `s.strip()` on a string: remove leading and trailing
whitespace (ASCII whitespace suffices for every value the scripts
handle). -/
def stripStr (s : String) : String :=
  ⟨(dropLeadingWs ((dropLeadingWs s.data).reverse)).reverse⟩

/-- Python `s.strip()` as a method: only strings have `.strip`. -/
def pyStrip : Json → Except String String
  | .str s => .ok (stripStr s)
  | _ => .error "AttributeError: no attribute strip"

/-! ## `scripts/responses.py`: `_join_reasoning_details` -/

/-- The loop body of `_join_reasoning_details`: keep
`d.get("text") if isinstance(d, dict) else None` whenever it is a
non-empty string. -/
def collectTexts : List Json → List String
  | [] => []
  | d :: rest =>
      match d with
      | .obj kvs =>
          match kvs.lookup "text" with
          | some (.str t) =>
              if t.isEmpty then collectTexts rest else t :: collectTexts rest
          | _ => collectTexts rest
      | _ => collectTexts rest

/-- `_join_reasoning_details(details)`: empty string for a falsy
argument, else iterate, collect the non-empty string `text` fields of
dict entries, join with newlines and strip. -/
def joinReasoningDetails (details : Json) : Except String String :=
  if details.truthy then
    match pyIter details with
    | .error e => .error e
    | .ok ds => .ok (stripStr (String.intercalate "\n" (collectTexts ds)))
  else
    .ok ""

/-! ## `scripts/responses.py`: `extract_reasoning_and_answer` -/

/-- The `or`-chain
`msg.get("reasoning") or _join_reasoning_details(msg.get("reasoning_details"))
or _join_reasoning_details(resp_json.get("reasoning_details")) or ""`,
with Python's short-circuit evaluation. -/
def reasoningChain (respJson msg : Json) : Except String Json :=
  match pyGet msg "reasoning" with
  | .error e => .error e
  | .ok r1 =>
      if r1.truthy then .ok r1 else
      match pyGet msg "reasoning_details" with
      | .error e => .error e
      | .ok rd1 =>
          match joinReasoningDetails rd1 with
          | .error e => .error e
          | .ok j1 =>
              if !j1.isEmpty then .ok (.str j1) else
              match pyGet respJson "reasoning_details" with
              | .error e => .error e
              | .ok rd2 =>
                  match joinReasoningDetails rd2 with
                  | .error e => .error e
                  | .ok j2 =>
                      if !j2.isEmpty then .ok (.str j2) else .ok (.str "")

/-- `extract_reasoning_and_answer(resp_json)`: returns
`(thinking_trajectory, attempt, meta)`. -/
def extract_reasoning_and_answer (respJson : Json) :
    Except String (String × String × Json) :=
  match pyGet respJson "choices" with
  | .error e => .error e
  | .ok c0 =>
      -- `choices = resp_json.get("choices") or []; if not choices: return "", "", {}`
      if !c0.truthy then .ok ("", "", .obj []) else
      match pyIndex0 c0 with
      | .error e => .error e
      | .ok ch0 =>
          match pyGetD ch0 "message" (.obj []) with
          | .error e => .error e
          | .ok m0 =>
              let msg := if m0.truthy then m0 else .obj []
              match reasoningChain respJson msg with
              | .error e => .error e
              | .ok reasoning =>
                  match pyGet msg "content" with
                  | .error e => .error e
                  | .ok c =>
                      let content := if c.truthy then c else .str ""
                      match pyGet ch0 "finish_reason" with
                      | .error e => .error e
                      | .ok fr =>
                          match pyGet ch0 "native_finish_reason" with
                          | .error e => .error e
                          | .ok nfr =>
                              match pyGet msg "role" with
                              | .error e => .error e
                              | .ok role =>
                                  let meta := Json.obj
                                    [("finish_reason", fr),
                                     ("native_finish_reason", nfr),
                                     ("role", role)]
                                  .ok ((if reasoning.truthy then reasoning
                                        else .str "").strPy,
                                       content.strPy, meta)

/-! ## `scripts/responses.py`: `call_openrouter`

The network is abstracted as an oracle mapping (headers, payload) to an
HTTP response whose body is already parsed JSON (`resp.json()`).
Connection-level failures are outside the model; the only modelled
failure of a request is `raise_for_status`. -/

/-- An HTTP response as seen through the `requests` library: a status
code and a parsed JSON body. -/
structure HttpResponse where
  status_code : Nat
  body : Json

/-- `requests.Response.raise_for_status()`: raises `requests.HTTPError`
for a 4xx client error or a 5xx server error, and returns normally for
every other status code. -/
def raise_for_status (r : HttpResponse) : Except String Unit :=
  if 400 ≤ r.status_code ∧ r.status_code < 500 then
    .error ("HTTPError: " ++ toString r.status_code ++ " Client Error")
  else if 500 ≤ r.status_code ∧ r.status_code < 600 then
    .error ("HTTPError: " ++ toString r.status_code ++ " Server Error")
  else
    .ok ()

/-- The keyword parameters of `call_openrouter`, with their defaults.
`temperature` is carried as an opaque JSON value (the script never
computes with it, only forwards it); `request_timeout` is forwarded to
the HTTP client and does not affect the modelled behaviour. -/
structure CallParams where
  model : String
  messages : Json
  max_tokens : Int := 16384
  temperature : Json
  json_mode : Bool := false
  referer : Option String := none
  title : Option String := none
  reasoning_effort : Option String := none
  include_usage_details : Bool := true

/-- The request headers built by `call_openrouter`. -/
def buildHeaders (api_key : String) (p : CallParams) : List (String × String) :=
  [("Authorization", "Bearer " ++ api_key),
   ("Content-Type", "application/json")]
  ++ (match p.referer with
      | some r => if !r.isEmpty then [("HTTP-Referer", r)] else []
      | none => [])
  ++ (match p.title with
      | some t => if !t.isEmpty then [("X-Title", t)] else []
      | none => [])

/-- The JSON request payload built by `call_openrouter`. -/
def buildPayload (p : CallParams) : Json :=
  Json.obj
    ([("model", .str p.model),
      ("messages", p.messages),
      ("temperature", p.temperature),
      ("max_tokens", .num p.max_tokens)]
     ++ (if p.json_mode then
          [("response_format", Json.obj [("type", .str "json_object")])]
        else [])
     ++ (match p.reasoning_effort with
         | some e =>
            if !e.isEmpty then
              [("reasoning", Json.obj [("effort", Json.str e)])]
            else []
         | none => [])
     ++ (if p.include_usage_details then
          [("usage", Json.obj [("include", Json.bool true)])]
        else []))

/-- `call_openrouter(...)`: build headers and payload, POST them (the
oracle `net`), `raise_for_status`, return the parsed JSON body. -/
def call_openrouter (net : List (String × String) → Json → HttpResponse)
    (api_key : String) (p : CallParams) : Except String Json :=
  let resp := net (buildHeaders api_key p) (buildPayload p)
  match raise_for_status resp with
  | .error e => .error e
  | .ok _ => .ok resp.body

/-! ## `scripts/responses.py`: `load_question` and `build_messages` -/

/-- Truthiness of an optional string (a Python `Optional[str]`):
`None` and `""` are falsy. -/
def optStrTruthy : Option String → Bool
  | none => false
  | some s => !s.isEmpty

/-- The scan `for i, line in enumerate(f): if i == index: return ...`:
returns the line at position `index`, or `none` when no position
matches (in particular for every negative `index`). -/
def findAtIndex : List Json → Int → Option Json
  | [], _ => none
  | x :: xs, i => if i = 0 then some x else findAtIndex xs (i - 1)

/-- `load_question(from_jsonl, index, fallback_question)`.  The file
system is abstracted as `fs : String → Option (List Json)`: `none`
means the path does not exist, `some lines` gives the already-parsed
JSONL lines.  `.error` models `raise SystemExit(message)`. -/
def load_question (fs : String → Option (List Json))
    (from_jsonl : Option String) (index : Int)
    (fallback_question : Option String) : Except String Json :=
  if optStrTruthy fallback_question then
    .ok (Json.obj [("question", .str (fallback_question.getD ""))])
  else if !optStrTruthy from_jsonl then
    .ok (Json.obj
      [("question", .str "What is the sum of the first 10 positive integers?")])
  else
    let path := from_jsonl.getD ""
    match fs path with
    | none => .error ("SystemExit: JSONL not found: " ++ path)
    | some lines =>
        match findAtIndex lines index with
        | some ex => .ok ex
        | none =>
            .error ("SystemExit: Index " ++ toString index
                    ++ " out of range for " ++ path)

/-- `build_messages(question)`. -/
def build_messages (question : String) : Json :=
  Json.arr
    [Json.obj [("role", .str "system"),
               ("content", .str "You are a helpful assistant. You are given a question and you need to answer it.")],
     Json.obj [("role", .str "user"),
               ("content", .str ("Question:\n" ++ question))]]

/-! ## `scripts/responses.py`: `main`

The process environment is `env : String → Option String`
(`os.environ.get`), the file system and network as above.  `main`'s
exit status: `sys.exit(2)` for a missing API key; every other failure
— `raise SystemExit(msg)`, the caught `requests.HTTPError` followed by
`sys.exit(1)`, or an uncaught exception — terminates the process with
status 1; a run that reaches the end exits 0. -/

/-- The parsed command-line arguments of `main`, with the argparse
defaults.  `--reasoning-effort` is restricted by argparse to
`low`/`medium`/`high` and defaults to `medium`; `--temperature` is
carried opaquely (its default is the float `0.7`, which the script
only forwards). -/
structure Args where
  model : String := "openai/gpt-oss-20b:free"
  question : Option String := none
  from_jsonl : String := "data/s1k-1.1/train_mini.jsonl"
  index : Int := 0
  max_tokens : Int := 16384
  temperature : Json := .null
  json_mode : Bool := false
  reasoning_effort : String := "medium"
  no_usage_details : Bool := false
  show_payload : Bool := false

/-- `question = ex.get("question") or ex.get("prompt") or args.question`
followed by `if not question: raise SystemExit(...)`. -/
def resolve_question (ex : Json) (argq : Option String) : Except String Json :=
  match pyGet ex "question" with
  | .error e => .error e
  | .ok q1 =>
      if q1.truthy then .ok q1 else
      match pyGet ex "prompt" with
      | .error e => .error e
      | .ok q2 =>
          if q2.truthy then .ok q2 else
          if optStrTruthy argq then .ok (.str (argq.getD "")) else
          .error "SystemExit: Could not determine a question to send."

/-- The fallible attribute accesses `main` performs on the response
body after `extract_reasoning_and_answer`: the usage block
(`resp_json.get("usage", {})` then `usage.get(...)`) and the
echoed-reasoning block
(`resp_json.get("choices", [{}])[0].get("message", {}).get("metadata")`
when `resp_json.get("choices")` is truthy). -/
def post_response (respJson : Json) : Except String Unit :=
  match pyGetD respJson "usage" (.obj []) with
  | .error e => .error e
  | .ok usage =>
      match pyGet usage "prompt_tokens_details" with
      | .error e => .error e
      | .ok _ =>
          match pyGet usage "completion_tokens_details" with
          | .error e => .error e
          | .ok _ =>
              match pyGet respJson "reasoning" with
              | .error e => .error e
              | .ok _ =>
                  match pyGet respJson "choices" with
                  | .error e => .error e
                  | .ok c0 =>
                      if c0.truthy then
                        match pyIndex0 c0 with
                        | .error e => .error e
                        | .ok ch0 =>
                            match pyGetD ch0 "message" (.obj []) with
                            | .error e => .error e
                            | .ok m =>
                                match pyGet m "metadata" with
                                | .error e => .error e
                                | .ok _ => .ok ()
                      else .ok ()

/-- The `CallParams` record `main` assembles: referer/title from the
environment with their fallbacks, everything else from the parsed
arguments. -/
def mainCallParams (env : String → Option String) (args : Args)
    (question : Json) : CallParams :=
  { model := args.model
    messages := build_messages question.strPy
    max_tokens := args.max_tokens
    temperature := args.temperature
    json_mode := args.json_mode
    referer := some
      (match env "OPENROUTER_SITE_URL" with
       | some s => if !s.isEmpty then s else "http://localhost"
       | none => "http://localhost")
    title := some
      (match env "OPENROUTER_TITLE" with
       | some s => if !s.isEmpty then s else "s1k-generation-test"
       | none => "s1k-generation-test")
    reasoning_effort := some args.reasoning_effort
    include_usage_details := !args.no_usage_details }

/-- Everything `main` does after the API-key check; `.error` means the
process will exit with status 1 (a `SystemExit` with a message, the
caught `HTTPError`, or an uncaught exception). -/
def main_after_key (env : String → Option String)
    (fs : String → Option (List Json))
    (net : List (String × String) → Json → HttpResponse)
    (args : Args) (api_key : String) : Except String Unit :=
  match load_question fs (some args.from_jsonl) args.index args.question with
  | .error e => .error e
  | .ok ex =>
      match resolve_question ex args.question with
      | .error e => .error e
      | .ok question =>
          match call_openrouter net api_key (mainCallParams env args question) with
          | .error e => .error e
          | .ok respJson =>
              match extract_reasoning_and_answer respJson with
              | .error e => .error e
              | .ok _ => post_response respJson

/-- `main()`: exit status of one run of the test client. -/
def main_run (env : String → Option String)
    (fs : String → Option (List Json))
    (net : List (String × String) → Json → HttpResponse)
    (args : Args) : Nat :=
  let api_key := (env "OPENROUTER_API_KEY").getD ""
  if api_key.isEmpty then 2
  else
    match main_after_key env fs net args api_key with
    | .ok _ => 0
    | .error _ => 1

/-! ## `data/prep_s1k_chatml.py` -/

/-- One role-tagged ChatML message object. -/
def mkMessage (role content : String) : Json :=
  Json.obj [("role", .str role), ("content", .str content)]

/-- The loop body of `prep_s1k_chatml.py`: one dataset row (a dict) to
one output record.  `ex["question"]` / `ex["attempt"]` raise
`KeyError` when absent; `trace_list = ex.get("thinking_trajectories")
or []`; `trace = (trace_list[0] if trace_list else "").strip()`. -/
def prep_record (ex : List (String × Json)) : Except String Json :=
  match ex.lookup "question" with
  | none => .error "KeyError: question"
  | some qv =>
      match pyStrip qv with
      | .error e => .error e
      | .ok q =>
          match ex.lookup "attempt" with
          | none => .error "KeyError: attempt"
          | some av =>
              let ans := stripStr av.strPy
              let tl0 := ((ex.lookup "thinking_trajectories").getD .null)
              let traceList := if tl0.truthy then tl0 else .arr []
              let traceRes : Except String String :=
                if traceList.truthy then
                  match pyIndex0 traceList with
                  | .error e => .error e
                  | .ok h => pyStrip h
                else .ok ""
              match traceRes with
              | .error e => .error e
              | .ok trace =>
                  .ok (Json.obj
                    [("messages",
                      Json.arr [mkMessage "user" q,
                                mkMessage "think" trace,
                                mkMessage "answer" ans])])

/-- The whole conversion loop: one record per dataset row, in order
(a failing row aborts the run with an exception). -/
def prep_all (rows : List (List (String × Json))) : Except String (List Json) :=
  rows.mapM prep_record

/-- The output record shape: one `messages` list with the three
role-tagged entries. -/
def chatRecord (q tr ans : String) : Json :=
  Json.obj
    [("messages",
      Json.arr [mkMessage "user" q, mkMessage "think" tr, mkMessage "answer" ans])]

/-- The `role` field of one message object. -/
def roleOf (m : Json) : String :=
  match m with
  | .obj kvs =>
      match kvs.lookup "role" with
      | some (.str r) => r
      | _ => ""
  | _ => ""

/-- The list of message roles of an output record, in order. -/
def recordRoles (rec : Json) : List String :=
  match rec with
  | .obj kvs =>
      match kvs.lookup "messages" with
      | some (.arr ms) => ms.map roleOf
      | _ => []
  | _ => []

/-- The number of messages of an output record. -/
def recordMessageCount (rec : Json) : Nat :=
  match rec with
  | .obj kvs =>
      match kvs.lookup "messages" with
      | some (.arr ms) => ms.length
      | _ => 0
  | _ => 0

/-- A dataset row as the converter expects it (spec §6): a string
`question`, an `attempt`, and `thinking_trajectories` absent, `None`,
or a list of strings (only the head is ever read). -/
def TTWellShaped (o : Option Json) : Prop :=
  o = none ∨ o = some Json.null ∨ o = some (Json.arr []) ∨
    ∃ t ts, o = some (Json.arr (Json.str t :: ts))

/-- A dataset row the converter accepts: string `question`, any
`attempt`, well-shaped `thinking_trajectories`. -/
def RowWellShaped (ex : List (String × Json)) : Prop :=
  (∃ q, ex.lookup "question" = some (Json.str q)) ∧
  (∃ a, ex.lookup "attempt" = some a) ∧
  TTWellShaped (ex.lookup "thinking_trajectories")

/-- The message object `extract_reasoning_and_answer` works with:
`msg = choices[0].get("message", {}) or {}` applied to the fields of
the first choice. -/
def msgOf (ckvs : List (String × Json)) : Json :=
  let m0 := (ckvs.lookup "message").getD (Json.obj [])
  if m0.truthy then m0 else Json.obj []

/-- A `reasoning_details` field the join can consume without an
exception: absent, falsy, or a list. -/
def DetailsShaped (o : Option Json) : Prop :=
  ∀ v, o = some v → (v.truthy = false ∨ ∃ xs, v = Json.arr xs)

/-- A response dict on which `extract_reasoning_and_answer` performs
no ill-typed operation: `choices` falsy, or a list headed by a dict
whose `message` normalises to a dict and whose `reasoning_details`
fields (both levels) are absent, falsy or lists. -/
def RespShaped (kvs : List (String × Json)) : Prop :=
  ((kvs.lookup "choices").getD Json.null).truthy = false ∨
  ∃ ckvs rest mkvs,
    kvs.lookup "choices" = some (Json.arr (Json.obj ckvs :: rest)) ∧
    msgOf ckvs = Json.obj mkvs ∧
    DetailsShaped (mkvs.lookup "reasoning_details") ∧
    DetailsShaped (kvs.lookup "reasoning_details")

/-! ## Helper lemmas -/

theorem prep_record_tt_list (ex : List (String × Json)) (q : String) (av : Json)
    (t : String) (ts : List Json)
    (hq : ex.lookup "question" = some (Json.str q))
    (ha : ex.lookup "attempt" = some av)
    (htt : ex.lookup "thinking_trajectories" = some (Json.arr (Json.str t :: ts))) :
    prep_record ex = .ok (chatRecord (stripStr q) (stripStr t) (stripStr av.strPy)) := by
  simp [prep_record, hq, ha, htt, pyStrip, pyIndex0, Json.truthy, chatRecord, mkMessage]

theorem prep_record_tt_empty (ex : List (String × Json)) (q : String) (av : Json)
    (hq : ex.lookup "question" = some (Json.str q))
    (ha : ex.lookup "attempt" = some av)
    (htt : ex.lookup "thinking_trajectories" = none ∨
           ex.lookup "thinking_trajectories" = some Json.null ∨
           ex.lookup "thinking_trajectories" = some (Json.arr [])) :
    prep_record ex = .ok (chatRecord (stripStr q) "" (stripStr av.strPy)) := by
  rcases htt with h | h | h <;>
    simp [prep_record, hq, ha, h, pyStrip, Json.truthy, chatRecord, mkMessage]

theorem prep_record_wellshaped (ex : List (String × Json))
    (h : RowWellShaped ex) :
    ∃ q tr a, prep_record ex = .ok (chatRecord q tr a) := by
  obtain ⟨⟨q, hq⟩, ⟨a, ha⟩, htt⟩ := h
  rcases htt with h1 | h1 | h1 | ⟨t, ts, h1⟩
  · exact ⟨_, _, _, prep_record_tt_empty ex q a hq ha (Or.inl h1)⟩
  · exact ⟨_, _, _, prep_record_tt_empty ex q a hq ha (Or.inr (Or.inl h1))⟩
  · exact ⟨_, _, _, prep_record_tt_empty ex q a hq ha (Or.inr (Or.inr h1))⟩
  · exact ⟨_, _, _, prep_record_tt_list ex q a t ts hq ha h1⟩

theorem prep_all_wellshaped (rows : List (List (String × Json)))
    (h : ∀ ex ∈ rows, RowWellShaped ex) :
    ∃ outs, prep_all rows = .ok outs ∧ outs.length = rows.length := by
  induction rows with
  | nil => exact ⟨[], rfl, rfl⟩
  | cons x xs ih =>
      obtain ⟨q, tr, a, hx⟩ := prep_record_wellshaped x (h x (by simp))
      obtain ⟨outs, houts, hlen⟩ := ih (fun ex hex => h ex (by simp [hex]))
      refine ⟨chatRecord q tr a :: outs, ?_, by simp [hlen]⟩
      simp only [prep_all] at houts ⊢
      rw [List.mapM_cons, hx, houts]
      rfl

theorem pyGetD_obj (kvs : List (String × Json)) (k : String) (d : Json) :
    pyGetD (Json.obj kvs) k d = .ok ((kvs.lookup k).getD d) := by
  cases h : kvs.lookup k <;> simp [pyGetD, h]

theorem pyGet_obj (kvs : List (String × Json)) (k : String) :
    pyGet (Json.obj kvs) k = .ok ((kvs.lookup k).getD Json.null) := by
  simp [pyGet, pyGetD_obj]

theorem strPy_or_empty (x : String) :
    (if (Json.str x).truthy = true then Json.str x else Json.str "").strPy = x := by
  by_cases h : x = ""
  · subst h; rfl
  · have hx : x.isEmpty = false := by
      rw [Bool.eq_false_iff]
      intro hx'
      exact h ((String.isEmpty_iff x).mp hx')
    simp [Json.truthy, hx, Json.strPy]

theorem msgOf_of_message_obj (ckvs mkvs : List (String × Json))
    (h : ckvs.lookup "message" = some (Json.obj mkvs)) :
    msgOf ckvs = Json.obj mkvs := by
  cases mkvs <;> simp [msgOf, h, Json.truthy]

theorem extract_empty_choices (kvs : List (String × Json))
    (h : ((kvs.lookup "choices").getD Json.null).truthy = false) :
    extract_reasoning_and_answer (Json.obj kvs) = .ok ("", "", .obj []) := by
  cases hc : kvs.lookup "choices" with
  | none => simp [extract_reasoning_and_answer, pyGet_obj, hc, Json.truthy]
  | some v =>
      rw [hc] at h
      simp only [Option.getD] at h
      simp [extract_reasoning_and_answer, pyGet_obj, hc, h]

theorem join_eval (v : Json) (ds : List Json)
    (h : v = Json.arr ds ∨ (v = Json.null ∧ ds = [])) :
    joinReasoningDetails v =
      .ok (stripStr (String.intercalate "\n" (collectTexts ds))) := by
  rcases h with h | ⟨h, hds⟩
  · subst h
    cases ds with
    | nil => rfl
    | cons d ds' => simp [joinReasoningDetails, Json.truthy, pyIter]
  · subst h; subst hds; rfl

theorem join_ok_of_shaped (o : Option Json) (h : DetailsShaped o) :
    ∃ j, joinReasoningDetails (o.getD Json.null) = .ok j := by
  cases ho : o with
  | none => exact ⟨"", rfl⟩
  | some v =>
      rcases h v ho with hv | ⟨xs, hxs⟩
      · exact ⟨"", by simp [joinReasoningDetails, hv]⟩
      · subst hxs
        exact ⟨_, join_eval _ xs (Or.inl rfl)⟩

theorem extract_shape (kvs ckvs mkvs : List (String × Json)) (rest : List Json)
    (hch : kvs.lookup "choices" = some (Json.arr (Json.obj ckvs :: rest)))
    (hm : msgOf ckvs = Json.obj mkvs) :
    extract_reasoning_and_answer (Json.obj kvs) =
      (match reasoningChain (Json.obj kvs) (Json.obj mkvs) with
       | .error e => .error e
       | .ok r =>
           .ok ((if r.truthy then r else Json.str "").strPy,
                (if ((mkvs.lookup "content").getD Json.null).truthy = true
                 then (mkvs.lookup "content").getD Json.null
                 else Json.str "").strPy,
                Json.obj
                  [("finish_reason", (ckvs.lookup "finish_reason").getD Json.null),
                   ("native_finish_reason",
                    (ckvs.lookup "native_finish_reason").getD Json.null),
                   ("role", (mkvs.lookup "role").getD Json.null)])) := by
  simp only [msgOf] at hm
  have htar : Json.truthy (Json.arr (Json.obj ckvs :: rest)) = true := rfl
  simp [extract_reasoning_and_answer, pyGet_obj, pyGetD_obj, hch, htar, pyIndex0, hm]

theorem reasoningChain_eval (kvs mkvs : List (String × Json)) (s j1 j2 : String)
    (hr : mkvs.lookup "reasoning" = some (Json.str s) ∨
          (mkvs.lookup "reasoning" = none ∧ s = ""))
    (hj1 : joinReasoningDetails ((mkvs.lookup "reasoning_details").getD Json.null)
           = .ok j1)
    (hj2 : joinReasoningDetails ((kvs.lookup "reasoning_details").getD Json.null)
           = .ok j2) :
    reasoningChain (Json.obj kvs) (Json.obj mkvs) =
      .ok (Json.str (if s ≠ "" then s else if j1 ≠ "" then j1 else j2)) := by
  have hemp : ∀ t : String, t ≠ "" → t.isEmpty = false := fun t ht => by
    rw [Bool.eq_false_iff]
    intro h'
    exact ht ((String.isEmpty_iff t).mp h')
  have hemptyT : ("" : String).isEmpty = true := rfl
  rcases hr with hr | ⟨hr, hs⟩
  · by_cases h : s = ""
    · subst h
      by_cases h1 : j1 = ""
      · subst h1
        by_cases h2 : j2 = ""
        · subst h2
          simp [reasoningChain, pyGet_obj, hr, hj1, hj2, Json.truthy, hemptyT]
        · simp [reasoningChain, pyGet_obj, hr, hj1, hj2, Json.truthy, hemptyT,
            hemp _ h2, h2]
      · simp [reasoningChain, pyGet_obj, hr, hj1, Json.truthy, hemptyT,
          hemp _ h1, h1]
    · simp [reasoningChain, pyGet_obj, hr, Json.truthy, hemp _ h, h]
  · subst hs
    by_cases h1 : j1 = ""
    · subst h1
      by_cases h2 : j2 = ""
      · subst h2
        simp [reasoningChain, pyGet_obj, hr, hj1, hj2, Json.truthy, hemptyT]
      · simp [reasoningChain, pyGet_obj, hr, hj1, hj2, Json.truthy, hemptyT,
          hemp _ h2, h2]
    · simp [reasoningChain, pyGet_obj, hr, hj1, Json.truthy, hemptyT,
        hemp _ h1, h1]

theorem reasoningChain_ok (kvs mkvs : List (String × Json))
    (hj1 : ∃ j, joinReasoningDetails
      ((mkvs.lookup "reasoning_details").getD Json.null) = .ok j)
    (hj2 : ∃ j, joinReasoningDetails
      ((kvs.lookup "reasoning_details").getD Json.null) = .ok j) :
    ∃ r, reasoningChain (Json.obj kvs) (Json.obj mkvs) = .ok r := by
  obtain ⟨j1, hj1⟩ := hj1
  obtain ⟨j2, hj2⟩ := hj2
  simp only [reasoningChain, pyGet_obj]
  by_cases ht : ((mkvs.lookup "reasoning").getD Json.null).truthy = true <;>
    by_cases h1 : j1.isEmpty <;> by_cases h2 : j2.isEmpty <;>
      simp [ht, h1, h2, hj1, hj2]

theorem extract_full_eval (kvs ckvs mkvs : List (String × Json))
    (rest ds1 ds2 : List Json) (s : String)
    (hch : kvs.lookup "choices" = some (Json.arr (Json.obj ckvs :: rest)))
    (hmsg : ckvs.lookup "message" = some (Json.obj mkvs))
    (hr : mkvs.lookup "reasoning" = some (Json.str s) ∨
          (mkvs.lookup "reasoning" = none ∧ s = ""))
    (hrd1 : mkvs.lookup "reasoning_details" = some (Json.arr ds1) ∨
            (mkvs.lookup "reasoning_details" = none ∧ ds1 = []))
    (hrd2 : kvs.lookup "reasoning_details" = some (Json.arr ds2) ∨
            (kvs.lookup "reasoning_details" = none ∧ ds2 = [])) :
    extract_reasoning_and_answer (Json.obj kvs) =
      .ok ((if s ≠ "" then s
            else if stripStr (String.intercalate "\n" (collectTexts ds1)) ≠ "" then
              stripStr (String.intercalate "\n" (collectTexts ds1))
            else stripStr (String.intercalate "\n" (collectTexts ds2))),
           (if ((mkvs.lookup "content").getD Json.null).truthy = true
            then (mkvs.lookup "content").getD Json.null
            else Json.str "").strPy,
           Json.obj
             [("finish_reason", (ckvs.lookup "finish_reason").getD Json.null),
              ("native_finish_reason",
               (ckvs.lookup "native_finish_reason").getD Json.null),
              ("role", (mkvs.lookup "role").getD Json.null)]) := by
  have hm := msgOf_of_message_obj ckvs mkvs hmsg
  have hj1 : joinReasoningDetails
      ((mkvs.lookup "reasoning_details").getD Json.null) =
      .ok (stripStr (String.intercalate "\n" (collectTexts ds1))) := by
    rcases hrd1 with h | ⟨h, hd⟩
    · rw [h]; exact join_eval _ ds1 (Or.inl rfl)
    · subst hd; rw [h]; exact join_eval _ [] (Or.inr ⟨rfl, rfl⟩)
  have hj2 : joinReasoningDetails
      ((kvs.lookup "reasoning_details").getD Json.null) =
      .ok (stripStr (String.intercalate "\n" (collectTexts ds2))) := by
    rcases hrd2 with h | ⟨h, hd⟩
    · rw [h]; exact join_eval _ ds2 (Or.inl rfl)
    · subst hd; rw [h]; exact join_eval _ [] (Or.inr ⟨rfl, rfl⟩)
  have hchain := reasoningChain_eval kvs mkvs s _ _ hr hj1 hj2
  rw [extract_shape kvs ckvs mkvs rest hch hm, hchain]
  simp [strPy_or_empty]

/-! ## Claim theorems: dataset conversion -/

/-- Claim C3: for every dataset row whose `thinking_trajectories`
field is a non-empty list of strings, the converter's output record
has its `think` message content equal to the first element of that
list with surrounding whitespace stripped. -/
theorem think_is_first_trajectory_stripped (ex : List (String × Json))
    (q t : String) (av : Json) (ts : List Json)
    (hq : ex.lookup "question" = some (Json.str q))
    (ha : ex.lookup "attempt" = some av)
    (htt : ex.lookup "thinking_trajectories" = some (Json.arr (Json.str t :: ts))) :
    prep_record ex = .ok (chatRecord (stripStr q) (stripStr t) (stripStr av.strPy)) :=
  prep_record_tt_list ex q av t ts hq ha htt

/-- Claim C3 witness: the spec's own example row. -/
theorem think_is_first_trajectory_stripped_witness :
    prep_record
      [("question", Json.str "2+2?"), ("attempt", Json.str "4"),
       ("thinking_trajectories", Json.arr [Json.str "Add the numbers."])] =
    .ok (chatRecord "2+2?" "Add the numbers." "4") := by
  exact think_is_first_trajectory_stripped _ "2+2?" "Add the numbers."
    (Json.str "4") [] rfl rfl rfl

/-- Claim C4: for every dataset row whose `thinking_trajectories`
field is absent, `None`, or an empty list, the converter's output
record has its `think` message content equal to the empty string. -/
theorem think_empty_when_no_trajectories (ex : List (String × Json))
    (q : String) (av : Json)
    (hq : ex.lookup "question" = some (Json.str q))
    (ha : ex.lookup "attempt" = some av)
    (htt : ex.lookup "thinking_trajectories" = none ∨
           ex.lookup "thinking_trajectories" = some Json.null ∨
           ex.lookup "thinking_trajectories" = some (Json.arr [])) :
    prep_record ex = .ok (chatRecord (stripStr q) "" (stripStr av.strPy)) :=
  prep_record_tt_empty ex q av hq ha htt

/-- Claim C4 witness: a row with no `thinking_trajectories` key. -/
theorem think_empty_when_no_trajectories_witness :
    prep_record [("question", Json.str "q"), ("attempt", Json.str "a")] =
    .ok (chatRecord "q" "" "a") := by
  exact think_empty_when_no_trajectories _ "q" (Json.str "a") rfl rfl (Or.inl rfl)

/-- Claim C5: every well-shaped dataset row yields exactly one output
record, and that record has exactly three messages in the fixed role
order user, think, answer; over a whole dataset the converter emits
one record per row. -/
theorem record_has_three_ordered_messages :
    (∀ ex, RowWellShaped ex →
       ∃ q tr a, prep_record ex = .ok (chatRecord q tr a) ∧
         recordMessageCount (chatRecord q tr a) = 3 ∧
         recordRoles (chatRecord q tr a) = ["user", "think", "answer"]) ∧
    (∀ rows, (∀ ex ∈ rows, RowWellShaped ex) →
       ∃ outs, prep_all rows = .ok outs ∧ outs.length = rows.length) := by
  constructor
  · intro ex h
    obtain ⟨q, tr, a, hx⟩ := prep_record_wellshaped ex h
    exact ⟨q, tr, a, hx, rfl, rfl⟩
  · exact prep_all_wellshaped

/-- Claim C5 witness: a concrete two-field row. -/
theorem record_has_three_ordered_messages_witness :
    ∃ q tr a,
      prep_record [("question", Json.str "2+2?"), ("attempt", Json.str "4")] =
        .ok (chatRecord q tr a) ∧
      recordMessageCount (chatRecord q tr a) = 3 ∧
      recordRoles (chatRecord q tr a) = ["user", "think", "answer"] := by
  refine record_has_three_ordered_messages.1 _ ?_
  exact ⟨⟨"2+2?", rfl⟩, ⟨Json.str "4", rfl⟩, Or.inl rfl⟩

/-! ## Claim theorems: reasoning extraction -/

/-- Claim C1: for a chat-completions response, the reasoning trace is
the first non-empty value among the first choice's `message.reasoning`
string, the newline-joined text fragments of `message.reasoning_details`,
and the newline-joined text fragments of a top-level `reasoning_details`
list; in particular it equals `message.reasoning` whenever that string
is non-empty.  (`s` is the `message.reasoning` string, `""` standing
for an absent field; `ds1`/`ds2` are the two detail lists, `[]`
standing for an absent field.) -/
theorem reasoning_trace_priority (kvs ckvs mkvs : List (String × Json))
    (rest ds1 ds2 : List Json) (s : String)
    (hch : kvs.lookup "choices" = some (Json.arr (Json.obj ckvs :: rest)))
    (hmsg : ckvs.lookup "message" = some (Json.obj mkvs))
    (hr : mkvs.lookup "reasoning" = some (Json.str s) ∨
          (mkvs.lookup "reasoning" = none ∧ s = ""))
    (hrd1 : mkvs.lookup "reasoning_details" = some (Json.arr ds1) ∨
            (mkvs.lookup "reasoning_details" = none ∧ ds1 = []))
    (hrd2 : kvs.lookup "reasoning_details" = some (Json.arr ds2) ∨
            (kvs.lookup "reasoning_details" = none ∧ ds2 = [])) :
    ∃ a m, extract_reasoning_and_answer (Json.obj kvs) =
      .ok ((if s ≠ "" then s
            else if stripStr (String.intercalate "\n" (collectTexts ds1)) ≠ "" then
              stripStr (String.intercalate "\n" (collectTexts ds1))
            else stripStr (String.intercalate "\n" (collectTexts ds2))), a, m) :=
  ⟨_, _, extract_full_eval kvs ckvs mkvs rest ds1 ds2 s hch hmsg hr hrd1 hrd2⟩

/-- Claim C1 witness: `message.reasoning`, `message.reasoning_details`
and a top-level `reasoning_details` are all present and non-empty; the
trace is `message.reasoning`. -/
theorem reasoning_trace_priority_witness :
    ∃ a m, extract_reasoning_and_answer
      (Json.obj
        [("choices", Json.arr
          [Json.obj
            [("message", Json.obj
              [("reasoning", Json.str "R"),
               ("reasoning_details",
                Json.arr [Json.obj [("text", Json.str "D")]])])]]),
         ("reasoning_details", Json.arr [Json.obj [("text", Json.str "T")]])]) =
      .ok ("R", a, m) := by
  obtain ⟨a, m, h⟩ := reasoning_trace_priority
    [("choices", Json.arr
      [Json.obj
        [("message", Json.obj
          [("reasoning", Json.str "R"),
           ("reasoning_details", Json.arr [Json.obj [("text", Json.str "D")]])])]]),
     ("reasoning_details", Json.arr [Json.obj [("text", Json.str "T")]])]
    [("message", Json.obj
      [("reasoning", Json.str "R"),
       ("reasoning_details", Json.arr [Json.obj [("text", Json.str "D")]])])]
    [("reasoning", Json.str "R"),
     ("reasoning_details", Json.arr [Json.obj [("text", Json.str "D")]])]
    [] [Json.obj [("text", Json.str "D")]] [Json.obj [("text", Json.str "T")]] "R"
    rfl rfl (Or.inl rfl) (Or.inl rfl) (Or.inl rfl)
  refine ⟨a, m, ?_⟩
  rw [h]
  rfl

/-- Claim C2: when none of the three reasoning sources is present —
`choices` missing or empty, or a first choice whose message carries no
`reasoning` and no `reasoning_details` and the response no top-level
`reasoning_details` — the extracted reasoning trace is the empty
string. -/
theorem reasoning_trace_empty_without_sources :
    (∀ kvs, ((kvs.lookup "choices").getD Json.null).truthy = false →
       extract_reasoning_and_answer (Json.obj kvs) = .ok ("", "", .obj [])) ∧
    (∀ kvs ckvs mkvs rest,
       kvs.lookup "choices" = some (Json.arr (Json.obj ckvs :: rest)) →
       ckvs.lookup "message" = some (Json.obj mkvs) →
       mkvs.lookup "reasoning" = none →
       mkvs.lookup "reasoning_details" = none →
       kvs.lookup "reasoning_details" = none →
       ∃ a m, extract_reasoning_and_answer (Json.obj kvs) = .ok ("", a, m)) := by
  constructor
  · exact extract_empty_choices
  · intro kvs ckvs mkvs rest hch hmsg hr hrd1 hrd2
    have h := extract_full_eval kvs ckvs mkvs rest [] [] "" hch hmsg
      (Or.inr ⟨hr, rfl⟩) (Or.inr ⟨hrd1, rfl⟩) (Or.inr ⟨hrd2, rfl⟩)
    exact ⟨(if ((mkvs.lookup "content").getD Json.null).truthy = true
            then (mkvs.lookup "content").getD Json.null
            else Json.str "").strPy,
           Json.obj
             [("finish_reason", (ckvs.lookup "finish_reason").getD Json.null),
              ("native_finish_reason",
               (ckvs.lookup "native_finish_reason").getD Json.null),
              ("role", (mkvs.lookup "role").getD Json.null)],
           by rw [h]; rfl⟩

/-- Claim C2 witness: a response whose only message field is
`content`. -/
theorem reasoning_trace_empty_without_sources_witness :
    ∃ a m, extract_reasoning_and_answer
      (Json.obj
        [("choices", Json.arr
          [Json.obj [("message", Json.obj [("content", Json.str "hi")])]])]) =
      .ok ("", a, m) :=
  reasoning_trace_empty_without_sources.2 _ _ _ _ rfl rfl rfl rfl rfl

/-- Claim C9 counterexample: `extract_reasoning_and_answer` is not
total on JSON-shaped dicts: a truthy non-iterable
`message.reasoning_details` (here the number 5) makes
`_join_reasoning_details` iterate over a number, a `TypeError`. -/
theorem extract_raises_on_numeric_details :
    extract_reasoning_and_answer
      (Json.obj
        [("choices", Json.arr
          [Json.obj
            [("message", Json.obj [("reasoning_details", Json.num 5)])]])]) =
      .error "TypeError: object is not iterable" := rfl

/-- Claim C9 (amended): on response dicts whose `choices`, `message`
and `reasoning_details` fields are shaped as JSON responses are
(`RespShaped`), `extract_reasoning_and_answer` raises nothing; a
missing, `None` or empty `choices` yields `("", "", {})`; and joining
skips every entry that is not a dict carrying a non-empty string
`text` field. -/
theorem extract_total_on_shaped :
    (∀ kvs, ((kvs.lookup "choices").getD Json.null).truthy = false →
       extract_reasoning_and_answer (Json.obj kvs) = .ok ("", "", .obj [])) ∧
    (∀ d ds,
       (¬ ∃ tkvs t, d = Json.obj tkvs ∧
          tkvs.lookup "text" = some (Json.str t) ∧ t ≠ "") →
       collectTexts (d :: ds) = collectTexts ds) ∧
    (∀ kvs, RespShaped kvs →
       ∃ out, extract_reasoning_and_answer (Json.obj kvs) = .ok out) := by
  refine ⟨extract_empty_choices, ?_, ?_⟩
  · intro d ds h
    cases d with
    | obj tkvs =>
        cases hl : tkvs.lookup "text" with
        | none => simp [collectTexts, hl]
        | some v =>
            cases v with
            | str t =>
                by_cases ht : t = ""
                · subst ht
                  have hemptyT : ("" : String).isEmpty = true := rfl
                  simp [collectTexts, hl, hemptyT]
                · exact absurd ⟨tkvs, t, rfl, hl, ht⟩ h
            | null => simp [collectTexts, hl]
            | bool b => simp [collectTexts, hl]
            | num n => simp [collectTexts, hl]
            | arr xs => simp [collectTexts, hl]
            | obj o => simp [collectTexts, hl]
    | null => simp [collectTexts]
    | bool b => simp [collectTexts]
    | num n => simp [collectTexts]
    | str s => simp [collectTexts]
    | arr xs => simp [collectTexts]
  · intro kvs h
    rcases h with h | ⟨ckvs, rest, mkvs, hch, hm, hd1, hd2⟩
    · exact ⟨_, extract_empty_choices kvs h⟩
    · obtain ⟨r, hchain⟩ := reasoningChain_ok kvs mkvs
        (join_ok_of_shaped _ hd1) (join_ok_of_shaped _ hd2)
      have heq := extract_shape kvs ckvs mkvs rest hch hm
      rw [hchain] at heq
      exact ⟨_, heq⟩

/-- Claim C9 witness: a fully-shaped response with a detail list. -/
theorem extract_total_on_shaped_witness :
    ∃ out, extract_reasoning_and_answer
      (Json.obj
        [("choices", Json.arr
          [Json.obj
            [("message", Json.obj
              [("reasoning_details",
                Json.arr [Json.obj [("text", Json.str "T")]])])]])]) =
      .ok out := by
  refine extract_total_on_shaped.2.2 _ (Or.inr ⟨_, [], _, rfl, rfl, ?_, ?_⟩)
  · intro v hv
    cases hv
    exact Or.inr ⟨_, rfl⟩
  · intro v hv
    exact nomatch hv

/-! ## Claim theorems: HTTP client and question loading -/

/-- Claim C6 counterexample: a 304 Not Modified response has a non-2xx
status, yet `call_openrouter` returns the parsed body instead of
raising: `requests`' `raise_for_status` only raises for 4xx/5xx. -/
theorem call_openrouter_returns_on_304 :
    (304 < 200 ∨ 300 ≤ 304) ∧
    call_openrouter (fun _ _ => ⟨304, Json.obj [("ok", Json.bool true)]⟩)
      "key" { model := "m", messages := Json.arr [], temperature := Json.null } =
      .ok (Json.obj [("ok", Json.bool true)]) :=
  ⟨Or.inr (by norm_num), rfl⟩

/-- Claim C6 (amended): `call_openrouter` raises an HTTP error exactly
for response status 400–599 and returns the parsed JSON body for every
other status, in particular for every 2xx response. -/
theorem call_openrouter_status_behaviour
    (net : List (String × String) → Json → HttpResponse)
    (api_key : String) (p : CallParams) :
    ((400 ≤ (net (buildHeaders api_key p) (buildPayload p)).status_code ∧
      (net (buildHeaders api_key p) (buildPayload p)).status_code < 600) →
     ∃ e, call_openrouter net api_key p = .error e) ∧
    (¬ (400 ≤ (net (buildHeaders api_key p) (buildPayload p)).status_code ∧
        (net (buildHeaders api_key p) (buildPayload p)).status_code < 600) →
     call_openrouter net api_key p =
       .ok (net (buildHeaders api_key p) (buildPayload p)).body) := by
  constructor
  · intro h
    simp only [call_openrouter, raise_for_status]
    by_cases h5 : (net (buildHeaders api_key p) (buildPayload p)).status_code < 500
    · rw [if_pos ⟨h.1, h5⟩]
      exact ⟨_, rfl⟩
    · rw [if_neg (fun hc => h5 hc.2), if_pos ⟨by omega, h.2⟩]
      exact ⟨_, rfl⟩
  · intro h
    simp only [call_openrouter, raise_for_status]
    rw [if_neg (fun hc => h ⟨hc.1, by omega⟩), if_neg (fun hc => h ⟨by omega, hc.2⟩)]

/-- Claim C6 witness: a 404 response makes the call raise. -/
theorem call_openrouter_status_behaviour_witness :
    ∃ e, call_openrouter (fun _ _ => ⟨404, Json.null⟩) "k"
      { model := "m", messages := Json.arr [], temperature := Json.null } =
      .error e :=
  (call_openrouter_status_behaviour _ _ _).1 ⟨by norm_num, by norm_num⟩

/-- Claim C8: with the JSONL source selected (no explicit question and
a non-empty path), a missing file, or an index that matches no line of
the file — in particular every negative index — makes `load_question`
terminate the process with a message (`SystemExit`) rather than return
a question. -/
theorem load_question_jsonl_failures :
    (∀ fs (path : String) (i : Int) fb, optStrTruthy fb = false →
       path.isEmpty = false → fs path = none →
       ∃ msg, load_question fs (some path) i fb = .error msg) ∧
    (∀ fs (path : String) (i : Int) fb lines, optStrTruthy fb = false →
       path.isEmpty = false → fs path = some lines →
       findAtIndex lines i = none →
       ∃ msg, load_question fs (some path) i fb = .error msg) ∧
    (∀ (lines : List Json) (i : Int), i < 0 → findAtIndex lines i = none) := by
  refine ⟨?_, ?_, ?_⟩
  · intro fs path i fb hfb hpath hfs
    have hp : optStrTruthy (some path) = true := by simp [optStrTruthy, hpath]
    exact ⟨"SystemExit: JSONL not found: " ++ path,
      by simp [load_question, hfb, hp, hfs]⟩
  · intro fs path i fb lines hfb hpath hfs hidx
    have hp : optStrTruthy (some path) = true := by simp [optStrTruthy, hpath]
    exact ⟨"SystemExit: Index " ++ toString i ++ " out of range for " ++ path,
      by simp [load_question, hfb, hp, hfs, hidx]⟩
  · intro lines
    induction lines with
    | nil => intro i h; rfl
    | cons x xs ih =>
        intro i h
        simp only [findAtIndex]
        rw [if_neg (by omega)]
        exact ih (i - 1) (by omega)

/-- Claim C8 witness: missing file. -/
theorem load_question_jsonl_failures_witness :
    ∃ msg, load_question (fun _ => none) (some "data.jsonl") 3 none =
      .error msg :=
  load_question_jsonl_failures.1 _ "data.jsonl" 3 none rfl rfl rfl

/-- Claim C10: `load_question` gives the explicit question priority —
a non-empty `fallback_question` is returned as `{"question": q}` under
every file system, so the JSONL path is never read — and with no
fallback and a `None` or empty `from_jsonl` it returns the built-in
default question instead of failing. -/
theorem load_question_explicit_priority :
    (∀ fs jsonl (i : Int) (q : String), q.isEmpty = false →
       load_question fs jsonl i (some q) =
         .ok (Json.obj [("question", Json.str q)])) ∧
    (∀ fs jsonl (i : Int) fb, optStrTruthy fb = false →
       optStrTruthy jsonl = false →
       load_question fs jsonl i fb =
         .ok (Json.obj
           [("question",
             Json.str "What is the sum of the first 10 positive integers?")])) := by
  constructor
  · intro fs jsonl i q hq
    simp [load_question, optStrTruthy, hq]
  · intro fs jsonl i fb hfb hj
    simp [load_question, hfb, hj]

/-- Claim C10 witness: the fallback question wins over a file system
that has no files at all. -/
theorem load_question_explicit_priority_witness :
    load_question (fun _ => none) (some "x.jsonl") 0 (some "hi") =
      .ok (Json.obj [("question", Json.str "hi")]) :=
  load_question_explicit_priority.1 _ _ _ "hi" rfl

theorem raise_for_status_ok_of_2xx (r : HttpResponse)
    (h1 : 200 ≤ r.status_code) (h2 : r.status_code < 300) :
    raise_for_status r = .ok () := by
  simp only [raise_for_status]
  rw [if_neg (by omega), if_neg (by omega)]

/-- Claim C7 counterexample: with the API key set, the default
arguments (no explicit question) and a file system on which the
default JSONL path does not exist, the run exits with status 1 even
though the key is set and no request — hence no HTTP error — ever
happens: `load_question` raises `SystemExit`, not only HTTP failures
end in status 1. -/
theorem main_exits_one_without_http_error :
    main_run (fun k => if k = "OPENROUTER_API_KEY" then some "sk-test" else none)
      (fun _ => none) (fun _ _ => ⟨200, Json.obj []⟩) {} = 1 ∧
    (fun k => if k = "OPENROUTER_API_KEY" then some "sk-test" else none)
        "OPENROUTER_API_KEY" = some "sk-test" ∧
    raise_for_status ⟨200, Json.obj []⟩ = .ok () :=
  ⟨rfl, rfl, rfl⟩

/-- Claim C7 (amended): the test client exits with status 2 exactly
when the API key is unset or empty; with a key set it exits 0 or 1 —
1 whenever question loading fails (missing file, bad index, no
determinable question) or the HTTP request fails with an HTTP error,
and 0 when loading, the request (2xx) and response processing all
succeed. -/
theorem main_exit_codes (env : String → Option String)
    (fs : String → Option (List Json))
    (net : List (String × String) → Json → HttpResponse) (args : Args) :
    (((env "OPENROUTER_API_KEY").getD "").isEmpty = true →
       main_run env fs net args = 2) ∧
    (((env "OPENROUTER_API_KEY").getD "").isEmpty = false →
       main_run env fs net args = 0 ∨ main_run env fs net args = 1) ∧
    (((env "OPENROUTER_API_KEY").getD "").isEmpty = false →
       (∃ e, load_question fs (some args.from_jsonl) args.index args.question
         = .error e) →
       main_run env fs net args = 1) ∧
    (((env "OPENROUTER_API_KEY").getD "").isEmpty = false →
       (∀ hs pl, ∃ e, raise_for_status (net hs pl) = .error e) →
       (∃ ex q, load_question fs (some args.from_jsonl) args.index args.question
          = .ok ex ∧ resolve_question ex args.question = .ok q) →
       main_run env fs net args = 1) ∧
    (((env "OPENROUTER_API_KEY").getD "").isEmpty = false →
       (∀ hs pl, 200 ≤ (net hs pl).status_code ∧ (net hs pl).status_code < 300) →
       (∀ hs pl, (∃ out, extract_reasoning_and_answer (net hs pl).body = .ok out) ∧
          post_response (net hs pl).body = .ok ()) →
       (∃ ex q, load_question fs (some args.from_jsonl) args.index args.question
          = .ok ex ∧ resolve_question ex args.question = .ok q) →
       main_run env fs net args = 0) := by
  refine ⟨?_, ?_, ?_, ?_, ?_⟩
  · intro h
    simp [main_run, h]
  · intro h
    cases hm : main_after_key env fs net args ((env "OPENROUTER_API_KEY").getD "")
      with
    | ok u => left; simp [main_run, h, hm]
    | error e => right; simp [main_run, h, hm]
  · intro h he
    obtain ⟨e, he⟩ := he
    simp [main_run, h, main_after_key, he]
  · intro h hhttp hlq
    obtain ⟨ex, q, hld, hres⟩ := hlq
    obtain ⟨e, hcall⟩ := hhttp
      (buildHeaders ((env "OPENROUTER_API_KEY").getD "") (mainCallParams env args q))
      (buildPayload (mainCallParams env args q))
    simp [main_run, h, main_after_key, hld, hres, call_openrouter, hcall]
  · intro h h2xx hresp hlq
    obtain ⟨ex, q, hld, hres⟩ := hlq
    have hro := raise_for_status_ok_of_2xx
      (net (buildHeaders ((env "OPENROUTER_API_KEY").getD "")
              (mainCallParams env args q))
           (buildPayload (mainCallParams env args q)))
      (h2xx _ _).1 (h2xx _ _).2
    obtain ⟨⟨out, hex⟩, hpost⟩ := hresp
      (buildHeaders ((env "OPENROUTER_API_KEY").getD "") (mainCallParams env args q))
      (buildPayload (mainCallParams env args q))
    simp [main_run, h, main_after_key, hld, hres, call_openrouter, hro, hex, hpost]

/-- Claim C7 witness: a full success run exits 0. -/
theorem main_exit_codes_witness :
    main_run (fun k => if k = "OPENROUTER_API_KEY" then some "sk" else none)
      (fun _ => none) (fun _ _ => ⟨200, Json.obj []⟩)
      { question := some "hi" } = 0 := by
  refine (main_exit_codes _ _ _ _).2.2.2.2 rfl
    (fun hs pl => ⟨by norm_num, by norm_num⟩)
    (fun hs pl => ⟨⟨("", "", Json.obj []), rfl⟩, rfl⟩)
    ⟨Json.obj [("question", Json.str "hi")], Json.str "hi", rfl, rfl⟩

end PruningEr
